import Mathlib

/-!
Verification of the Mimic request-routing pipeline (`__mimic/mimic.py`).

The definitions below are a shallow embedding of the routing, authorization
and dispatch logic of `mimic.py`.  Python strings are Lean `String`s, Python
`None` is `Option.none`, raised exceptions are `Except.error`, and the
process-global mutable state (the namespace manager's current namespace and
the `_dev_appserver_state` sticky project-id slot) is threaded explicitly.

Collaborators that live outside `mimic.py` (the `common`, `control`,
`target_info` and `target_env` modules, the App Engine SDK, the YAML parser,
the mime-type guesser) are modelled as explicit parameters, following the
spec's collaborator contracts; each such definition says so in its doc
comment.
-/

namespace Mimic

/-- Kernel-friendly embedding of Python's `str.startswith`. -/
def listStartsWith : List Char → List Char → Bool
  | _, [] => true
  | [], _ :: _ => false
  | a :: as, b :: bs => a == b && listStartsWith as bs

/-- Embedding of Python's `str.startswith` on `String`. -/
def pyStartsWith (s pre : String) : Bool :=
  listStartsWith s.data pre.data

/-- Embedding of Python's `str.split(c)` on a single-character separator
(always returns at least one piece). -/
def splitOnChar (c : Char) : List Char → List (List Char)
  | [] => [[]]
  | a :: as =>
    match splitOnChar c as with
    | [] => if a == c then [[], []] else [[a]]
    | h :: t => if a == c then [] :: h :: t else (a :: h) :: t

/-- Embedding of Python's `str.split(c)` producing `String` pieces. -/
def pySplit (s : String) (c : Char) : List String :=
  (splitOnChar c s.data).map (fun l => String.mk l)

/-- Embedding of Python's `str.split(c, 1)` (split at the first occurrence
only); `Option.none` when the separator does not occur. -/
def pySplitFirst (s : String) (c : Char) : Option (String × String) :=
  match splitOnChar c s.data with
  | [] => Option.none
  | [_] => Option.none
  | h :: t => Option.some (String.mk h, String.mk (List.intercalate [c] t))

/-- Embedding of `str.replace('-dot-', '.')`, the one `replace` call made by
`mimic.py` (`GetProjectIdFromHttpHost`): non-overlapping, left to right. -/
def replaceDotChars : List Char → List Char
  | '-' :: 'd' :: 'o' :: 't' :: '-' :: rest => '.' :: replaceDotChars rest
  | a :: rest => a :: replaceDotChars rest
  | [] => []

/-- `http_host.replace('-dot-', '.')` on `String`. -/
def replaceDot (s : String) : String :=
  String.mk (replaceDotChars s.data)

/-- Python truthiness of an optional string: `None` and `''` are falsy. -/
def truthy : Option String → Bool
  | Option.none => false
  | Option.some s => !s.data.isEmpty

/-- Python's `x or d` for an optional string `x` and a string default `d`. -/
def pyOr (o : Option String) (d : String) : String :=
  match o with
  | Option.none => d
  | Option.some s => if s.data.isEmpty then d else s

/-- Value of a hexadecimal digit, if the character is one. -/
def hexVal? (c : Char) : Option Nat :=
  if '0' ≤ c ∧ c ≤ '9' then Option.some (c.toNat - '0'.toNat)
  else if 'a' ≤ c ∧ c ≤ 'f' then Option.some (c.toNat - 'a'.toNat + 10)
  else if 'A' ≤ c ∧ c ≤ 'F' then Option.some (c.toNat - 'A'.toNat + 10)
  else Option.none

/-- Embedding of Python 2's `urllib.unquote` percent-decoding: a `%` followed
by two hex digits becomes the decoded character; otherwise the `%` is kept. -/
def unquoteChars : List Char → List Char
  | [] => []
  | '%' :: a :: b :: rest =>
    match hexVal? a, hexVal? b with
    | Option.some ha, Option.some hb => Char.ofNat (16 * ha + hb) :: unquoteChars rest
    | _, _ => '%' :: unquoteChars (a :: b :: rest)
  | ch :: rest => ch :: unquoteChars rest

/-- `urllib.unquote` on `String`. -/
def unquote (s : String) : String :=
  String.mk (unquoteChars s.data)

/-- `str.replace('+', ' ')`, applied by `parse_qsl` before unquoting. -/
def plusToSpace (s : String) : String :=
  String.mk (s.data.map (fun ch => if ch == '+' then ' ' else ch))

/-- The WSGI request environ fields read by `mimic.py` (`os.environ` /
`environ`).  The three `hdr_*` fields model the optional `HTTP_X_APPENGINE_*`
variables (`environ.get`), the others are the always-present WSGI fields. -/
structure Environ where
  http_host : String
  path_info : String
  query_string : String
  wsgi_url_scheme : String
  hdr_current_namespace : Option String
  hdr_queuename : Option String
  hdr_cron : Option String
deriving DecidableEq

/-- Modelled from the spec: deployment configuration read from the missing
`common.config` module and the App Engine `app_identity` service — the name of
the explicit tenant-id query parameter, the configured path-info pattern
(`PROJECT_ID_FROM_PATH_INFO_RE.match(path).group(1)` as a function), and the
platform's default version hostname. -/
structure MimicConfig where
  projectIdQueryParam : String
  projectIdFromPathInfoFn : String → Option String
  defaultVersionHostname : String

/-- Modelled from the spec: a user object as exposed by the identity
provider; only its display name is consumed by `mimic.py`. -/
structure User where
  nickname : String
deriving DecidableEq

/-- Modelled from the spec: the `users_mod` identity-provider collaborator
(`CurrentUser`, `IsCurrentUserAdmin`, `CreateLoginUrl`, `CreateLogoutUrl`). -/
structure UsersMod where
  get_current_user : Option User
  is_current_user_admin : Bool
  create_login_url : String → String
  create_logout_url : String → String

/-- Modelled from the spec: the login requirement of a route rule
(`target_info.LOGIN_NONE` / `LOGIN_REQUIRED` / `LOGIN_ADMIN`;
`target_info.py` is not under `src/`). -/
inductive Login where
  | none
  | required
  | admin
deriving DecidableEq

/-- Modelled from the spec: the security level of a route rule
(`target_info.SECURE_ALWAYS` vs. the default; `target_info.py` is not under
`src/`). -/
inductive Secure where
  | default
  | always
deriving DecidableEq

/-- A static route rule's payload (`target_info.StaticPage`): file path,
optional mime-type override, declared cache-expiration policy. -/
structure StaticPage where
  file_path : String
  mime_type : Option String
  expiration : String
deriving DecidableEq

/-- A script route rule's payload (`target_info.ScriptPage`). -/
structure ScriptPage where
  script_path : String
deriving DecidableEq

/-- The shape of a matched page: static, script, or an unrecognized page
object (whose `repr` string is carried for the error message). -/
inductive PageKind where
  | static (sp : StaticPage)
  | script (sp : ScriptPage)
  | other (objRepr : String)
deriving DecidableEq

/-- Modelled from the spec: a matched route rule as returned by
`target_info.FindPage` — every page carries a login requirement and a
security level, plus its kind-specific payload. -/
structure Page where
  login : Login
  secure : Secure
  kind : PageKind
deriving DecidableEq

/-- The tree collaborator: `GetFileContents(path) -> bytes | None`. -/
abbrev Tree := String → Option String

/-- Modelled from the spec: stand-in for the parsed `app.yaml` mapping; its
contents are interpreted only by the route-matching collaborator. -/
structure AppConfig where
  raw : String
deriving DecidableEq

/-- Result of `yaml.safe_load` (external YAML parser): a top-level mapping,
or some other document shape. -/
inductive YamlDoc where
  | mapping (config : AppConfig)
  | other
deriving DecidableEq

/-- Failure modes of the script-execution collaborator
(`target_env.TargetEnvironment.RunScript`). -/
inductive ScriptErr where
  | notFound
  | other (msg : String)
deriving DecidableEq

/-- Errors that `mimic.py` can raise (modelling Python exceptions): the
`BadValueError` of `namespace_manager.validate_namespace`, an unexpected
script-execution error, the `NotImplementedError` for unrecognized pages, and
arbitrary collaborator failures. -/
inductive MimicError where
  | badValue (msg : String)
  | scriptError (msg : String)
  | notImplemented (msg : String)
  | collabFailure (msg : String)
deriving DecidableEq

/-- An emitted HTTP response, as assembled by `RespondWithStatus`:
`cacheControl = some s` means the `Expires` and `Cache-Control: public,
max-age=s` headers are printed (which `RespondWithStatus` does exactly when
its `expiration_s` argument is nonzero); `headers` are the extra header
pairs. -/
structure Response where
  status : Nat
  contentType : String
  cacheControl : Option Nat
  headers : List (String × String)
  body : Option String
deriving DecidableEq

/-- Embedding of `RespondWithStatus(status_code, expiration_s, content_type,
data, headers)`: assembles the response instead of printing it.  The
`Expires` / `Cache-Control` pair is emitted only when `expiration_s` is
nonzero (`if expiration_s:` in the source). -/
def RespondWithStatus (status_code : Nat) (expiration_s : Nat)
    (content_type : String) (data : Option String)
    (headers : List (String × String)) : Response :=
  { status := status_code
    contentType := content_type
    cacheControl := if expiration_s ≠ 0 then Option.some expiration_s else Option.none
    headers := headers
    body := data }

/-- The `_NOT_FOUND_PAGE % path` HTML error page of `mimic.py` (whitespace
normalized). -/
def notFoundPage (path : String) : String :=
  "<html> <body> <h3>404 Not Found</h3> Your application's <code>app.yaml</code> file does not have a handler for the requested path: <code>"
    ++ path ++ "</code><br> <br> See <a href=\"https://developers.google.com/appengine/docs/python/config/appconfig\"> https://developers.google.com/appengine/docs/python/config/appconfig</a> </body> </html>"

/-- Modelled from the spec: collaborators used by target-request handling —
the external YAML parser (`yaml.safe_load`), the route matcher
(`target_info.FindPage`, not under `src/`), dev-mode detection
(`common.IsDevMode`, not under `src/`), the mime-type guesser
(`common.GuessMimeType`), the expiration-policy parser
(`appinfo.ParseExpiration`, seconds), and the script runner
(`target_env.TargetEnvironment(tree, config, namespace).RunScript`). -/
structure TargetCollab where
  parseYaml : String → Except String YamlDoc
  findPage : AppConfig → String → Option Page
  isDevMode : Bool
  guessMimeType : String → String
  parseExpiration : String → Nat
  runScript : Tree → AppConfig → Option String → String → Except ScriptErr Response

/-- Embedding of `ServeStaticPage(tree, page)`. -/
def ServeStaticPage (c : TargetCollab) (tree : Tree) (page : StaticPage) : Response :=
  let file_path := page.file_path
  match tree file_path with
  | Option.none =>
    RespondWithStatus 404 0 "text/html; charset=utf-8"
      (Option.some (notFoundPage file_path)) []
  | Option.some file_data =>
    let content_type :=
      match page.mime_type with
      | Option.some m => m
      | Option.none => c.guessMimeType file_path
    let expiration_s := c.parseExpiration page.expiration
    RespondWithStatus 200 expiration_s content_type (Option.some file_data) []

/-- Embedding of `ServeScriptPage(tree, config, page, namespace)`: a
`ScriptNotFoundError` becomes a 404 response, any other script failure
propagates as an exception. -/
def ServeScriptPage (c : TargetCollab) (tree : Tree) (config : AppConfig)
    (page : ScriptPage) (nmspc : Option String) : Except MimicError Response :=
  match c.runScript tree config nmspc page.script_path with
  | Except.ok r => Except.ok r
  | Except.error ScriptErr.notFound =>
    Except.ok (RespondWithStatus 404 0 "text/plain; charset=utf-8"
      (Option.some ("Error: could not find script " ++ page.script_path)) [])
  | Except.error (ScriptErr.other msg) => Except.error (MimicError.scriptError msg)

/-- Embedding of `_IsAuthorized(page, users_mod)`; the queue/cron markers are
read from the request environ (`os.environ.get`). -/
def IsAuthorized (environ : Environ) (page : Page) (users_mod : UsersMod) : Bool :=
  if page.login = Login.none then true
  else if users_mod.get_current_user.isSome ∧ users_mod.is_current_user_admin then true
  else if truthy environ.hdr_queuename ∨ truthy environ.hdr_cron then true
  else if page.login = Login.required ∧ users_mod.get_current_user.isSome then true
  else false

/-- Embedding of `_CurrentUrl(force_https)`. -/
def CurrentUrl (environ : Environ) (force_https : Bool) : String :=
  let scheme := if force_https then "https" else environ.wsgi_url_scheme
  let url := scheme ++ "://" ++ environ.http_host ++ environ.path_info
  let query := environ.query_string
  if query.data.isEmpty then url else url ++ "?" ++ query

/-- Embedding of `RunTargetApp(tree, path_info, namespace, users_mod)`.
Emitted responses are returned as `Except.ok`, raised exceptions as
`Except.error`. -/
def RunTargetApp (c : TargetCollab) (environ : Environ) (tree : Tree)
    (path_info : String) (nmspc : Option String) (users_mod : UsersMod) :
    Except MimicError Response :=
  match tree "app.yaml" with
  | Option.none =>
    Except.ok (RespondWithStatus 404 0 "text/plain; charset=utf-8"
      (Option.some "Error: no app.yaml file.") [])
  | Option.some app_yaml =>
    match c.parseYaml app_yaml with
    | Except.error msg =>
      Except.ok (RespondWithStatus 404 0 "text/plain; charset=utf-8"
        (Option.some ("Error: app.yaml configuration is missing or invalid: " ++ msg)) [])
    | Except.ok YamlDoc.other =>
      Except.ok (RespondWithStatus 404 0 "text/plain; charset=utf-8"
        (Option.some "Error: app.yaml configuration is missing or invalid.") [])
    | Except.ok (YamlDoc.mapping config) =>
      match c.findPage config path_info with
      | Option.none =>
        Except.ok (RespondWithStatus 404 0 "text/html; charset=utf-8"
          (Option.some (notFoundPage path_info)) [])
      | Option.some page =>
        if page.secure = Secure.always ∧ c.isDevMode = false
            ∧ environ.wsgi_url_scheme ≠ "https" then
          Except.ok (RespondWithStatus 302 0 "text/plain; charset=utf-8"
            Option.none [("Location", CurrentUrl environ true)])
        else if ¬ IsAuthorized environ page users_mod then
          let message :=
            match users_mod.get_current_user with
            | Option.some user =>
              "User <b>" ++ user.nickname
                ++ "</b> is not authorized to view this page.<br>Please <a href=\""
                ++ users_mod.create_logout_url (CurrentUrl environ false)
                ++ "\">logout</a> and then login as an authorized user."
            | Option.none =>
              "You are not authorized to view this page. You may need to <a href=\""
                ++ users_mod.create_login_url (CurrentUrl environ false)
                ++ "\">login</a>."
          Except.ok (RespondWithStatus 403 0 "text/plain; charset=utf-8"
            (Option.some message) [("Content-Type", "text/html; charset=utf-8")])
        else
          match page.kind with
          | PageKind.static sp => Except.ok (ServeStaticPage c tree sp)
          | PageKind.script sp => ServeScriptPage c tree config sp nmspc
          | PageKind.other objRepr =>
            Except.error (MimicError.notImplemented ("Unrecognized page " ++ objRepr))

/-- Embedding of Python 2's `urlparse.parse_qsl(qs, strict_parsing=False)`
with the default `keep_blank_values=False`: split on `&` and `;`, drop empty
chunks, drop chunks without `=` and chunks with an empty value, then apply
`+`-to-space and percent-decoding to names and values. -/
def parse_qsl (qs : String) : List (String × String) :=
  let pairs := (pySplit qs '&').flatMap (fun s1 => pySplit s1 ';')
  pairs.filterMap (fun nv =>
    if nv.data.isEmpty then Option.none
    else
      match pySplitFirst nv '=' with
      | Option.none => Option.none
      | Option.some (n, v) =>
        if v.data.isEmpty then Option.none
        else Option.some (unquote (plusToSpace n), unquote (plusToSpace v)))

/-- Embedding of `GetProjectIdFromQueryParam(environ)`; `dict(...)` keeps the
last binding of a repeated key, hence the reversed lookup. -/
def GetProjectIdFromQueryParam (cfg : MimicConfig) (environ : Environ) : Option String :=
  let qs := environ.query_string
  if qs.data.isEmpty then Option.none
  else ((parse_qsl qs).reverse).lookup cfg.projectIdQueryParam

/-- Embedding of `GetProjectIdFromPathInfo(environ)`: the configured
path-info pattern, as a function (see `MimicConfig`). -/
def GetProjectIdFromPathInfo (cfg : MimicConfig) (environ : Environ) : Option String :=
  cfg.projectIdFromPathInfoFn environ.path_info

/-- Modelled from the spec: `common.IPV4_REGEX` (`common.py` is not under
`src/`) — an IPv4-literal host, i.e. four dot-separated runs of digits. -/
def isIpv4Literal (s : String) : Bool :=
  let parts := pySplit s '.'
  parts.length == 4 && parts.all (fun p => !p.data.isEmpty && p.data.all Char.isDigit)

/-- Modelled from the spec: `common.TOP_LEVEL_APPSPOT_COM_REGEX` (`common.py`
is not under `src/`) — the bare top-level application host
`<app-id>.appspot.com` with no further subdomain. -/
def isTopLevelAppspotCom (s : String) : Bool :=
  match pySplit s '.' with
  | [appId, second, third] => !appId.data.isEmpty && second == "appspot" && third == "com"
  | _ => false

/-- Embedding of `GetProjectIdFromHttpHost(environ)`. -/
def GetProjectIdFromHttpHost (cfg : MimicConfig) (environ : Environ) : Option String :=
  let http_host := environ.http_host
  let http_host := replaceDot http_host
  let http_host := (pySplit http_host ':').headD ""
  if http_host = "localhost" ∨ isIpv4Literal http_host
      ∨ isTopLevelAppspotCom http_host ∨ http_host = cfg.defaultVersionHostname then
    Option.none
  else
    Option.some ((pySplit http_host '.').headD "")

/-- Embedding of `GetProjectId(environ, use_sticky_project_id)`.  The mutable
`_dev_appserver_state['project_id']` slot is threaded explicitly: the result
is `(returned project id, new slot value)`. -/
def GetProjectId (cfg : MimicConfig) (environ : Environ)
    (use_sticky_project_id : Bool) (slot : Option String) :
    Option String × Option String :=
  let project_id := environ.hdr_current_namespace
  if truthy project_id then (project_id, slot)
  else
    let project_id := GetProjectIdFromQueryParam cfg environ
    if truthy project_id then
      (project_id, if use_sticky_project_id then project_id else slot)
    else
      let project_id := GetProjectIdFromPathInfo cfg environ
      if truthy project_id then (project_id, slot)
      else
        let project_id := GetProjectIdFromHttpHost cfg environ
        if truthy project_id then (project_id, slot)
        else if use_sticky_project_id then (slot, slot)
        else (project_id, slot)

/-- Embedding of `GetNamespace()`; `namespace_manager.validate_namespace` is
an external App Engine collaborator, passed as `validate` (it raises
`BadValueError` on invalid namespaces).  The sticky-slot state is threaded as
in `GetProjectId`. -/
def GetNamespace (cfg : MimicConfig) (validate : String → Except MimicError Unit)
    (environ : Environ) (is_dev_mode : Bool) (slot : Option String) :
    Except MimicError String × Option String :=
  let pr := GetProjectId cfg environ is_dev_mode slot
  let nmspc := pyOr pr.1 ""
  match validate nmspc with
  | Except.error e => (Except.error e, pr.2)
  | Except.ok _ => (Except.ok nmspc, pr.2)

/-- Modelled from the spec: the collaborators of `RunMimic` that are not in
`src/` — the control/shell path name constants (`common.CONTROL_PREFIX` and
`common.SHELL_PREFIX`, deployment configuration), the per-control-path
requirement predicates (`control.ControlRequestRequiresTree` /
`...RequiresNamespace`), namespace validation, tree creation
(`create_tree_func`), and the control and shell WSGI apps.  Tree creation and
the two apps receive and may alter the namespace-manager state (their second
`Option String` argument) and may raise. -/
structure MimicCollab where
  cfg : MimicConfig
  target : TargetCollab
  validateNamespace : String → Except MimicError Unit
  controlPathHead : String
  shellPathHead : String
  controlRequiresTree : String → Bool
  controlRequiresNamespace : String → Bool
  createTree : Option String → String → Option String →
    Except MimicError Tree × Option String
  runControlApp : Option Tree → Option String → Option String →
    Except MimicError Unit × Option String
  runShellApp : Option Tree → Option String → Option String →
    Except MimicError Unit × Option String

/-- The process-wide mutable state touched by `RunMimic`: the namespace
manager's current namespace and the sticky project-id slot. -/
structure MimicWorld where
  ns : Option String
  slot : Option String
deriving DecidableEq

/-- The outcome of one `RunMimic` call: the returned-or-raised result, the
final mutable state, and the list of namespaces that `RunMimic` itself passed
to `namespace_manager.set_namespace`, in call order. -/
structure MimicOutcome where
  result : Except MimicError (Option Response)
  world : MimicWorld
  nsSets : List (Option String)

/-- Embedding of `RunMimic(create_tree_func, access_key, users_mod)`.  The
`try`/`finally` is modelled by construction: the body's result is computed
first, then the `finally` branch unconditionally restores `saved_namespace`.
A `BadValueError` raised by `GetNamespace` happens before the namespace is
switched, so on that path no `set_namespace` call is recorded. -/
def RunMimic (c : MimicCollab) (environ : Environ) (access_key : String)
    (users_mod : UsersMod) (w : MimicWorld) : MimicOutcome :=
  let path_info := environ.path_info
  let is_control_request := pyStartsWith path_info c.controlPathHead
  let requires_tree :=
    if is_control_request then c.controlRequiresTree path_info else true
  let requires_namespace :=
    if is_control_request then c.controlRequiresNamespace path_info else true
  let nsAttempt : Except MimicError (Option String) × Option String :=
    if requires_namespace then
      let p := GetNamespace c.cfg c.validateNamespace environ c.target.isDevMode w.slot
      (p.1.map Option.some, p.2)
    else (Except.ok Option.none, w.slot)
  match nsAttempt with
  | (Except.error e, slot') =>
    { result := Except.error e, world := { ns := w.ns, slot := slot' }, nsSets := [] }
  | (Except.ok nmspc, slot') =>
    let saved_namespace := w.ns
    let ns1 := nmspc
    let body : Except MimicError (Option Response) × Option String :=
      match (if requires_tree then
               let p := c.createTree nmspc access_key ns1
               (p.1.map Option.some, p.2)
             else (Except.ok Option.none, ns1)) with
      | (Except.error e, n) => (Except.error e, n)
      | (Except.ok tree, n) =>
        if is_control_request then
          let p := c.runControlApp tree nmspc n
          (p.1.map (fun _ => Option.none), p.2)
        else if pyStartsWith path_info c.shellPathHead then
          let p := c.runShellApp tree nmspc n
          (p.1.map (fun _ => Option.none), p.2)
        else
          -- target requests always require a tree, so `tree` is present here;
          -- the empty default is unreachable
          ((RunTargetApp c.target environ (tree.getD (fun _ => Option.none))
              path_info nmspc users_mod).map Option.some, n)
    { result := body.1
      world := { ns := saved_namespace, slot := slot' }
      nsSets := [nmspc, saved_namespace] }

/-! ## Spec-side definitions (used to state refinement claims) -/

/-- The host-derived tenant resolution exactly as the spec words it: first
normalize the alternate subdomain delimiter to a dot, then strip any `:port`
suffix; return `Option.none` for `localhost`, IPv4-literal hosts, the bare
top-level application host, and the platform default hostname; otherwise the
left-most dot-delimited label. -/
def ResolveFromHostSpec (cfg : MimicConfig) (environ : Environ) : Option String :=
  let normalized := (pySplit (replaceDot environ.http_host) ':').headD ""
  if normalized = "localhost" then Option.none
  else if isIpv4Literal normalized then Option.none
  else if isTopLevelAppspotCom normalized then Option.none
  else if normalized = cfg.defaultVersionHostname then Option.none
  else Option.some ((pySplit normalized '.').headD "")

/-- The four tenant-id sources of `GetProjectId`, in the order the source
consults them: internal current-namespace header, query parameter, path-info
pattern, host header. -/
def tenantSources (cfg : MimicConfig) (environ : Environ) : List (Option String) :=
  [environ.hdr_current_namespace,
   GetProjectIdFromQueryParam cfg environ,
   GetProjectIdFromPathInfo cfg environ,
   GetProjectIdFromHttpHost cfg environ]

/-! ## Concrete instances, used by the witnesses -/

/-- A concrete deployment configuration (query parameter named `p`, no
path-info pattern). -/
def cfgW : MimicConfig :=
  { projectIdQueryParam := "p"
    projectIdFromPathInfoFn := fun _ => Option.none
    defaultVersionHostname := "myapp.appspot.com" }

/-- An anonymous, non-admin identity provider. -/
def umNone : UsersMod :=
  { get_current_user := Option.none
    is_current_user_admin := false
    create_login_url := fun s => s
    create_logout_url := fun s => s }

/-- A request with both a query-parameter tenant id (`acme`) and a
host-derived tenant id (`h`). -/
def envW : Environ :=
  { http_host := "h.example.com"
    path_info := "/"
    query_string := "p=acme"
    wsgi_url_scheme := "http"
    hdr_current_namespace := Option.none
    hdr_queuename := Option.none
    hdr_cron := Option.none }

/-- A request with no resolvable tenant signal at all. -/
def envLocal : Environ :=
  { envW with http_host := "localhost", query_string := "" }

/-- A page demanding `secure: always`. -/
def pageSecure : Page :=
  { login := Login.none, secure := Secure.always, kind := PageKind.other "P" }

/-- A page of unrecognized kind, open to everyone. -/
def pageOther : Page :=
  { login := Login.none, secure := Secure.default, kind := PageKind.other "P" }

/-- A static page whose expiration policy parses to zero seconds. -/
def pageExpire0 : StaticPage :=
  { file_path := "f.txt", mime_type := Option.none, expiration := "0s" }

/-- Concrete target collaborators whose route matcher always returns `pg` and
whose expiration parser maps every policy (such as `"0s"`) to 0 seconds. -/
def cT (pg : Page) : TargetCollab :=
  { parseYaml := fun _ => Except.ok (YamlDoc.mapping { raw := "" })
    findPage := fun _ _ => Option.some pg
    isDevMode := false
    guessMimeType := fun _ => "text/plain"
    parseExpiration := fun _ => 0
    runScript := fun _ _ _ _ => Except.error ScriptErr.notFound }

/-- A tree holding just an `app.yaml`. -/
def treeW : Tree :=
  fun p => if p = "app.yaml" then Option.some "y" else Option.none

/-- A tree holding an `app.yaml` and one static file. -/
def treeFileW : Tree :=
  fun p =>
    if p = "app.yaml" then Option.some "y"
    else if p = "f.txt" then Option.some "data" else Option.none

/-- A tree with no files at all. -/
def treeEmptyW : Tree := fun _ => Option.none

/-! ## Claims -/

/-- C1: For every request handled by `RunMimic`, the namespace that was
active before `RunMimic` set the resolved namespace is restored exactly once
before `RunMimic` returns or propagates an error, on every branch (control,
shell, or target request) and on every error path, including when a
collaborator invoked inside the try block raises an unexpected error: the
final namespace-manager state always equals the initial one, and the list of
`set_namespace` calls made by `RunMimic` is either `[resolved, saved]` (one
switch, one restore) or empty — the latter only when `GetNamespace` raised
before any switch happened, in which case `RunMimic` propagates that error. -/
theorem runMimic_restores_namespace (c : MimicCollab) (environ : Environ)
    (access_key : String) (users_mod : UsersMod) (w : MimicWorld) :
    (RunMimic c environ access_key users_mod w).world.ns = w.ns
    ∧ ((∃ n, (RunMimic c environ access_key users_mod w).nsSets = [n, w.ns])
       ∨ ((RunMimic c environ access_key users_mod w).nsSets = []
           ∧ ∃ e, (RunMimic c environ access_key users_mod w).result
                    = Except.error e)) := by
  simp only [RunMimic]
  split
  · exact ⟨rfl, Or.inr ⟨rfl, _, rfl⟩⟩
  · exact ⟨rfl, Or.inl ⟨_, rfl⟩⟩

/-- C2: `_IsAuthorized` returns `True` if and only if the page requires no
login, or the current user is non-null and an admin, or a (non-empty)
task-queue or cron marker is present in the environ, or the page requires
plain login and the current user is non-null. -/
theorem isAuthorized_iff (environ : Environ) (page : Page) (users_mod : UsersMod) :
    IsAuthorized environ page users_mod = true ↔
      (page.login = Login.none
        ∨ (users_mod.get_current_user ≠ Option.none
            ∧ users_mod.is_current_user_admin = true)
        ∨ truthy environ.hdr_queuename = true
        ∨ truthy environ.hdr_cron = true
        ∨ (page.login = Login.required
            ∧ users_mod.get_current_user ≠ Option.none)) := by
  unfold IsAuthorized
  split_ifs with h1 h2 h3 h4
  all_goals simp_all [Option.isSome_iff_ne_none]
  all_goals tauto

/-- C3: Whenever at least one of the four tenant-id sources yields a
non-empty value, `GetProjectId` returns the first non-empty one in the fixed
order: internal current-namespace header, query parameter, path-info pattern,
host header. -/
theorem getProjectId_precedence (cfg : MimicConfig) (environ : Environ)
    (use_sticky : Bool) (slot : Option String)
    (h : (tenantSources cfg environ).any truthy = true) :
    (GetProjectId cfg environ use_sticky slot).1
      = ((tenantSources cfg environ).find? truthy).join := by
  by_cases t1 : truthy environ.hdr_current_namespace <;>
  by_cases t2 : truthy (GetProjectIdFromQueryParam cfg environ) <;>
  by_cases t3 : truthy (GetProjectIdFromPathInfo cfg environ) <;>
  by_cases t4 : truthy (GetProjectIdFromHttpHost cfg environ) <;>
  simp_all [GetProjectId, tenantSources, List.find?, Option.join, truthy]

/-- Witness for C3, showing in particular that with both a query-parameter
tenant id (`acme`) and a host-derived tenant id (`h`) present, the
query-parameter one is returned. -/
theorem getProjectId_precedence_witness :
    (tenantSources cfgW envW).any truthy = true
    ∧ GetProjectIdFromQueryParam cfgW envW = Option.some "acme"
    ∧ GetProjectIdFromHttpHost cfgW envW = Option.some "h"
    ∧ (GetProjectId cfgW envW false Option.none).1 = Option.some "acme" := by
  have h := getProjectId_precedence cfgW envW false Option.none (by decide)
  exact ⟨by decide, by decide, by decide, by rw [h]; decide⟩

/-- C4: `GetProjectIdFromHttpHost` agrees everywhere with the spec's
description `ResolveFromHostSpec`: normalize `-dot-` to `.`, strip the
`:port` suffix, return `Option.none` for `localhost`, IPv4 literals, the bare
top-level application host and the platform default hostname, and otherwise
return the left-most dot-delimited label. -/
theorem getProjectIdFromHttpHost_eq_spec (cfg : MimicConfig) (environ : Environ) :
    GetProjectIdFromHttpHost cfg environ = ResolveFromHostSpec cfg environ := by
  simp only [GetProjectIdFromHttpHost, ResolveFromHostSpec]
  split_ifs <;> tauto

/-- C5: The sticky slot after a `GetProjectId` call equals the
query-parameter result exactly when stickiness is enabled, the internal
header source was empty, and the query-parameter source yielded a non-empty
id; otherwise it is unchanged.  And when all four sources yield `None`, the
call returns the slot value if stickiness is enabled, `None` otherwise. -/
theorem getProjectId_sticky (cfg : MimicConfig) (environ : Environ)
    (use_sticky : Bool) (slot : Option String) :
    ((GetProjectId cfg environ use_sticky slot).2
      = (if use_sticky = true
            ∧ truthy environ.hdr_current_namespace = false
            ∧ truthy (GetProjectIdFromQueryParam cfg environ) = true
         then GetProjectIdFromQueryParam cfg environ
         else slot))
    ∧ ((environ.hdr_current_namespace = Option.none
        ∧ GetProjectIdFromQueryParam cfg environ = Option.none
        ∧ GetProjectIdFromPathInfo cfg environ = Option.none
        ∧ GetProjectIdFromHttpHost cfg environ = Option.none) →
       (GetProjectId cfg environ use_sticky slot).1
         = (if use_sticky = true then slot else Option.none)) := by
  constructor
  · by_cases t1 : truthy environ.hdr_current_namespace <;>
    by_cases t2 : truthy (GetProjectIdFromQueryParam cfg environ) <;>
    by_cases t3 : truthy (GetProjectIdFromPathInfo cfg environ) <;>
    by_cases t4 : truthy (GetProjectIdFromHttpHost cfg environ) <;>
    cases use_sticky <;>
    simp_all [GetProjectId]
  · rintro ⟨h1, h2, h3, h4⟩
    cases use_sticky <;> simp_all [GetProjectId, truthy]

/-- Witness for C5: resolving tenant id `acme` via the query parameter with
sticky enabled overwrites the slot; a later request with no resolvable
signal returns `acme` with sticky enabled and `None` with sticky disabled. -/
theorem getProjectId_sticky_witness :
    (GetProjectId cfgW envW true Option.none).2 = Option.some "acme"
    ∧ (GetProjectId cfgW envLocal true (Option.some "acme")).1 = Option.some "acme"
    ∧ (GetProjectId cfgW envLocal false (Option.some "acme")).1 = Option.none := by
  have h1 := (getProjectId_sticky cfgW envW true Option.none).1
  have h2 := (getProjectId_sticky cfgW envLocal true (Option.some "acme")).2
    (by exact ⟨rfl, by decide, rfl, by decide⟩)
  have h3 := (getProjectId_sticky cfgW envLocal false (Option.some "acme")).2
    (by exact ⟨rfl, by decide, rfl, by decide⟩)
  refine ⟨?_, ?_, ?_⟩
  · rw [h1]; decide
  · rw [h2]; decide
  · rw [h3]; decide

/-- C6: For a matched page with `secure: always`, outside dev mode and with
an insecure inbound scheme, `RunTargetApp` responds 302 with a `Location`
header equal to the current URL with the scheme forced to `https`; the
conclusion holds for every identity provider, script runner and tree
contents, so neither the authorization check nor static/script dispatch can
influence (or be reached on) such a request. -/
theorem runTargetApp_secure_redirect (c : TargetCollab) (environ : Environ)
    (tree : Tree) (path_info : String) (nmspc : Option String)
    (users_mod : UsersMod) (y : String) (config : AppConfig) (page : Page)
    (hy : tree "app.yaml" = Option.some y)
    (hp : c.parseYaml y = Except.ok (YamlDoc.mapping config))
    (hf : c.findPage config path_info = Option.some page)
    (hs : page.secure = Secure.always)
    (hd : c.isDevMode = false)
    (hh : environ.wsgi_url_scheme ≠ "https") :
    RunTargetApp c environ tree path_info nmspc users_mod
      = Except.ok (RespondWithStatus 302 0 "text/plain; charset=utf-8"
          Option.none [("Location", CurrentUrl environ true)])
    ∧ CurrentUrl environ true
        = (if environ.query_string.data.isEmpty
           then "https://" ++ environ.http_host ++ environ.path_info
           else "https://" ++ environ.http_host ++ environ.path_info
                  ++ "?" ++ environ.query_string) := by
  constructor
  · unfold RunTargetApp
    simp only [hy, hp, hf]
    rw [if_pos ⟨hs, hd, hh⟩]
  · unfold CurrentUrl
    by_cases hq : environ.query_string.data.isEmpty <;> simp [hq]

/-- Witness for C6 at a concrete insecure request. -/
theorem runTargetApp_secure_redirect_witness :
    RunTargetApp (cT pageSecure) envW treeW "/" Option.none umNone
      = Except.ok (RespondWithStatus 302 0 "text/plain; charset=utf-8"
          Option.none [("Location", CurrentUrl envW true)])
    ∧ CurrentUrl envW true
        = (if envW.query_string.data.isEmpty
           then "https://" ++ envW.http_host ++ envW.path_info
           else "https://" ++ envW.http_host ++ envW.path_info
                  ++ "?" ++ envW.query_string) :=
  runTargetApp_secure_redirect (cT pageSecure) envW treeW "/" Option.none umNone
    "y" { raw := "" } pageSecure (by decide) rfl rfl rfl rfl (by decide)

/-- C7: When the tenant's `app.yaml` is missing, fails YAML parsing, or
parses to a non-mapping, `RunTargetApp` returns (never raises) a 404
response whose body describes the configuration problem. -/
theorem runTargetApp_config_not_found (c : TargetCollab) (environ : Environ)
    (tree : Tree) (path_info : String) (nmspc : Option String)
    (users_mod : UsersMod)
    (h : tree "app.yaml" = Option.none
         ∨ ∃ y, tree "app.yaml" = Option.some y
             ∧ ∀ config, c.parseYaml y ≠ Except.ok (YamlDoc.mapping config)) :
    ∃ r, RunTargetApp c environ tree path_info nmspc users_mod = Except.ok r
      ∧ r.status = 404
      ∧ (r.body = Option.some "Error: no app.yaml file."
         ∨ (∃ m, r.body
              = Option.some ("Error: app.yaml configuration is missing or invalid: " ++ m))
         ∨ r.body = Option.some "Error: app.yaml configuration is missing or invalid.") := by
  unfold RunTargetApp
  rcases h with h | ⟨y, hy, hbad⟩
  · simp only [h]
    exact ⟨_, rfl, rfl, Or.inl rfl⟩
  · simp only [hy]
    cases hp : c.parseYaml y with
    | error msg =>
      simp only [hp]
      exact ⟨_, rfl, rfl, Or.inr (Or.inl ⟨msg, rfl⟩)⟩
    | ok d =>
      cases d with
      | mapping config => exact absurd hp (hbad config)
      | other =>
        simp only [hp]
        exact ⟨_, rfl, rfl, Or.inr (Or.inr rfl)⟩

/-- Witness for C7 at a tree with no `app.yaml` at all. -/
theorem runTargetApp_config_not_found_witness :
    ∃ r, RunTargetApp (cT pageOther) envW treeEmptyW "/" Option.none umNone
        = Except.ok r
      ∧ r.status = 404
      ∧ (r.body = Option.some "Error: no app.yaml file."
         ∨ (∃ m, r.body
              = Option.some ("Error: app.yaml configuration is missing or invalid: " ++ m))
         ∨ r.body = Option.some "Error: app.yaml configuration is missing or invalid.") :=
  runTargetApp_config_not_found (cT pageOther) envW treeEmptyW "/" Option.none
    umNone (Or.inl rfl)

/-- C8 (amended): `ServeStaticPage` responds 404 with an HTML error page
naming the missing file when `GetFileContents` returns `None`; otherwise it
responds 200 with the file bytes, a content type equal to the explicit
mime-type override when set and otherwise guessed from the file path, and —
exactly when the rule's expiration policy parses to a nonzero number of
seconds — `Expires` and `Cache-Control` headers carrying that value (when
the policy parses to zero, the two headers are omitted). -/
theorem serveStaticPage_responses (c : TargetCollab) (tree : Tree) (page : StaticPage) :
    (tree page.file_path = Option.none →
      ServeStaticPage c tree page
        = RespondWithStatus 404 0 "text/html; charset=utf-8"
            (Option.some (notFoundPage page.file_path)) [])
    ∧ (∀ d, tree page.file_path = Option.some d →
        (ServeStaticPage c tree page).status = 200
        ∧ (ServeStaticPage c tree page).body = Option.some d
        ∧ (ServeStaticPage c tree page).contentType
            = (match page.mime_type with
               | Option.some m => m
               | Option.none => c.guessMimeType page.file_path)
        ∧ (ServeStaticPage c tree page).cacheControl
            = (if c.parseExpiration page.expiration ≠ 0
               then Option.some (c.parseExpiration page.expiration)
               else Option.none)) := by
  constructor
  · intro h
    simp only [ServeStaticPage, h]
  · intro d h
    simp [ServeStaticPage, RespondWithStatus, h]

/-- Witness for C8's amended theorem: both the missing-file branch and the
present-file branch at concrete inputs. -/
theorem serveStaticPage_responses_witness :
    ServeStaticPage (cT pageOther) treeEmptyW pageExpire0
      = RespondWithStatus 404 0 "text/html; charset=utf-8"
          (Option.some (notFoundPage pageExpire0.file_path)) []
    ∧ (ServeStaticPage (cT pageOther) treeFileW pageExpire0).status = 200
    ∧ (ServeStaticPage (cT pageOther) treeFileW pageExpire0).body
        = Option.some "data" := by
  have h1 := (serveStaticPage_responses (cT pageOther) treeEmptyW pageExpire0).1 rfl
  have h2 := (serveStaticPage_responses (cT pageOther) treeFileW pageExpire0).2
    "data" (by decide)
  exact ⟨h1, h2.1, h2.2.1⟩

/-- Counterexample to C8 as stated: a static rule whose declared expiration
policy (`"0s"`) parses to zero seconds is served with HTTP 200 and the file
bytes but with no `Expires`/`Cache-Control` headers at all
(`RespondWithStatus` prints them only for a nonzero expiration), contradicting
the claim that the headers are always present, computed from the policy. -/
theorem serveStaticPage_zero_expiration_counterexample :
    treeFileW pageExpire0.file_path = Option.some "data"
    ∧ (cT pageOther).parseExpiration pageExpire0.expiration = 0
    ∧ (ServeStaticPage (cT pageOther) treeFileW pageExpire0).status = 200
    ∧ (ServeStaticPage (cT pageOther) treeFileW pageExpire0).cacheControl
        = Option.none := by
  exact ⟨by decide, rfl, rfl, by decide⟩

/-- C9: A matched page that is neither static nor script (an unrecognized
page object), once past the secure-redirect and authorization gates, makes
`RunTargetApp` raise a `NotImplementedError` naming the page rather than
emit a response. -/
theorem runTargetApp_unrecognized_page (c : TargetCollab) (environ : Environ)
    (tree : Tree) (path_info : String) (nmspc : Option String)
    (users_mod : UsersMod) (y : String) (config : AppConfig) (page : Page)
    (objRepr : String)
    (hy : tree "app.yaml" = Option.some y)
    (hp : c.parseYaml y = Except.ok (YamlDoc.mapping config))
    (hf : c.findPage config path_info = Option.some page)
    (hk : page.kind = PageKind.other objRepr)
    (hsec : ¬ (page.secure = Secure.always ∧ c.isDevMode = false
               ∧ environ.wsgi_url_scheme ≠ "https"))
    (hauth : IsAuthorized environ page users_mod = true) :
    RunTargetApp c environ tree path_info nmspc users_mod
      = Except.error (MimicError.notImplemented ("Unrecognized page " ++ objRepr)) := by
  unfold RunTargetApp
  simp only [hy, hp, hf]
  rw [if_neg hsec, if_neg (by simp [hauth]), hk]

/-- Witness for C9 at a concrete unrecognized page. -/
theorem runTargetApp_unrecognized_page_witness :
    RunTargetApp (cT pageOther) envW treeW "/" Option.none umNone
      = Except.error (MimicError.notImplemented ("Unrecognized page " ++ "P")) :=
  runTargetApp_unrecognized_page (cT pageOther) envW treeW "/" Option.none umNone
    "y" { raw := "" } pageOther "P" (by decide) rfl rfl rfl (by decide) rfl

/-- C10: When `GetProjectId` resolves no tenant id (returns `None`),
`GetNamespace` substitutes the empty string before validation; since the
platform's `validate_namespace` accepts the default empty namespace, the
request is served in the default namespace rather than rejected. -/
theorem getNamespace_empty_default (cfg : MimicConfig)
    (validate : String → Except MimicError Unit) (environ : Environ)
    (is_dev_mode : Bool) (slot : Option String)
    (hp : (GetProjectId cfg environ is_dev_mode slot).1 = Option.none)
    (hv : validate "" = Except.ok ()) :
    (GetNamespace cfg validate environ is_dev_mode slot).1 = Except.ok "" := by
  simp only [GetNamespace]
  rw [hp]
  simp [pyOr, hv]

/-- A namespace validator that accepts everything (in particular the empty
default namespace, which the App Engine `validate_namespace` accepts). -/
def validateOkW : String → Except MimicError Unit := fun _ => Except.ok ()

/-- Witness for C10 at a request with no resolvable tenant signal. -/
theorem getNamespace_empty_default_witness :
    (GetNamespace cfgW validateOkW envLocal false Option.none).1
      = Except.ok "" :=
  getNamespace_empty_default cfgW validateOkW envLocal false Option.none
    (by decide) rfl

end Mimic
